import Mathlib

/-
Verification of the equipment capability and reach engine of the breakwater
repository (src/breakwater/equipment/equipment.py).

The Python classes are embedded shallowly:
  * numbers are exact rationals (ℚ); Python's float("inf") standing lengths are
    `Option ℚ` with `none` denoting +∞;
  * fallible Python code returns `Except PyErr`; the Python exceptions that the
    source can raise (ValueError from unpacking an empty coordinate list or from
    shapely's `Polygon` on fewer than three points, ZeroDivisionError from `H/V`
    with `V = 0`, TypeError from a keyword call mismatch, and the `raise
    UserWarning` in `get_production_rate`) are modelled by the `PyErr` sentinels;
  * the `install` recursion of `Excavator` and `Crane` (the slope fallback that
    re-invokes `install` at `ymax = waterlvl + h_dry`) is modelled with explicit
    fuel (`installAux`); running out of fuel is Python's RecursionError;
  * `grading in design_type.keys()` becomes membership of the grading string in
    the list of keys; the loading chart dict becomes an association list from
    elevation to its parallel `x`/`w` arrays, kept as a list of pairs;
  * the shapely polygon containment (`within`) computed by
    `Excavator.chart_location` is not modelled because its value is never used
    by `install`; only the arity requirement of `Polygon` (at least three
    coordinate tuples, hence a ValueError for a section with fewer than three
    coordinates or a one-row loading chart, whose hull has only two points) is
    kept, since it decides whether the call raises;
  * plotting arguments and the `layer` name, which never influence a decision
    or an exception, are dropped.
-/

/-- Python exceptions that the modelled code can raise. -/
inductive PyErr where
  | valueError
  | zeroDivisionError
  | typeError
  | userWarning
  | keyError
  | recursionError
deriving DecidableEq, Repr

/-- Lowest y-coordinate of a section, Python's `min(y_section)` (sections are
non-empty wherever this is used; the default is never reached). -/
def yStartOf (coords : List (ℚ × ℚ)) : ℚ :=
  ((coords.map Prod.snd).min?).getD 0

/-- Highest y-coordinate of a section, Python's `max(y_section)`. -/
def yEndOf (coords : List (ℚ × ℚ)) : ℚ :=
  ((coords.map Prod.snd).max?).getD 0

/-- `length_top >= required_length` where `length_top` may be `float("inf")`
(modelled as `none`). -/
def lengthOkOf (required : ℚ) (lengthTop : Option ℚ) : Bool :=
  match lengthTop with
  | none => true
  | some l => decide (required ≤ l)

/-- Decides `h ≤ sqrt v` over the reals, as the Python
`h <= np.sqrt(v)` where `np.sqrt` of a negative argument is NaN and every
comparison with NaN is false: for `v ≥ 0`, `h ≤ √v ↔ h ≤ 0 ∨ h² ≤ v`. -/
def sqrtLe (h v : ℚ) : Bool :=
  if v < 0 then false else (decide (h ≤ 0) || decide (h ^ 2 ≤ v))

/-- Python's `max` on coordinate tuples (lexicographic, first maximal wins). -/
def tupMax (a b : ℚ × ℚ) : ℚ × ℚ :=
  if a.1 < b.1 then b else if b.1 < a.1 then a else if a.2 < b.2 then b else a

/-- `max(section_coords)[0]` of `Barge.install`. -/
def xtopOf (coords : List (ℚ × ℚ)) : ℚ :=
  match coords with
  | [] => 0
  | c :: cs => (cs.foldl tupMax c).1

/-- `Equipment.location_equipment`.  `argsSum` is `sum(args)`; `isBarge` is
`isinstance(equip, Barge)`.  Returns `(xloc_equip, yloc_equip, flip)`. -/
def location_equipment (argsSum xpoint : ℚ) (section_coords : List (ℚ × ℚ))
    (isBarge : Bool) (y_installation_waterdepth height ymax : ℚ) :
    ℚ × ℚ × Bool :=
  let allNonneg := section_coords.all (fun c => decide (0 ≤ c.1))
  if isBarge then
    let yloc := y_installation_waterdepth + height
    if allNonneg then (xpoint + argsSum, yloc, true)
    else (-xpoint - argsSum, yloc, false)
  else
    if allNonneg then (xpoint - argsSum, ymax, false)
    else (-xpoint + argsSum, ymax, true)

/-- State of a `Truck`: capability keys and physical parameters. -/
structure Truck where
  design_type : List String
  waterlvl : ℚ
  required_length : ℚ
  h_dry : ℚ
deriving DecidableEq, Repr

/-- State of a `PlateFeeder`. -/
structure PlateFeeder where
  design_type : List String
  top_installation : ℚ
  waterlvl : ℚ
  h_dry : ℚ
deriving DecidableEq, Repr

/-- State of an `Excavator`; the loading chart maps a relative elevation to its
parallel reach/weight arrays (kept as pairs). -/
structure Excavator where
  design_type : List String
  waterlvl : ℚ
  loading_chart : List (ℚ × List (ℚ × ℚ))
  h_dry : ℚ
  required_length : ℚ
  offset : ℚ
deriving DecidableEq, Repr

/-- State of a `Crane`; the loading chart maps a radius to its
(boom length, max payload) entries. -/
structure Crane where
  design_type : List String
  waterlvl : ℚ
  required_length : ℚ
  loading_chart : List (ℚ × List (ℚ × ℚ))
  h_dry : ℚ
  offset : ℚ
deriving DecidableEq, Repr

/-- State of a `Vessel`. -/
structure Vessel where
  design_type : List String
  waterlvl : ℚ
  installation_waterdepth : ℚ
  ukc : ℚ
deriving DecidableEq, Repr

/-- State of a `Barge` (the platform itself; the mounted instrument is passed
separately, as `self.instance`). -/
structure Barge where
  waterlvl : ℚ
  installation_waterdepth : ℚ
  height : ℚ
  ukc : ℚ
  margin_x : ℚ
deriving DecidableEq, Repr

/-- The arguments of `Excavator.install` and `Crane.install` (they take the
same parameters).  `lengthTop = none` is `float("inf")`; `xlocEquip = none`
means the location is resolved by `location_equipment`. -/
structure InstallArgs where
  gradingLayer : String
  ymax : ℚ
  sectionCoords : List (ℚ × ℚ)
  xmaxTop : ℚ
  mass : ℚ
  lengthTop : Option ℚ
  slope : ℚ × ℚ
  xlocEquip : Option (ℚ × ℚ)
deriving DecidableEq, Repr

/-- Location used by `install`: the caller-supplied `(xloc_equip, yloc_equip)`
if given (then `flip` keeps its initial `False`), else `location_equipment`
with the land convention. -/
def resolvedLoc (offset : ℚ) (a : InstallArgs) : ℚ × ℚ × Bool :=
  match a.xlocEquip with
  | some p => (p.1, p.2, false)
  | none => location_equipment offset a.xmaxTop a.sectionCoords false 0 0 a.ymax

/-- `Truck.install` (no `level` parameter; `length_top` is required). -/
def Truck.install (self : Truck) (grading_layer : String) (ymax : ℚ)
    (section_coords : List (ℚ × ℚ)) (length_top : ℚ) : Except PyErr Bool :=
  match section_coords with
  | [] => .error .valueError
  | _ :: _ =>
    let level := max (yStartOf section_coords - self.waterlvl) (ymax - self.waterlvl)
    .ok (self.design_type.contains grading_layer &&
      (decide (self.h_dry ≤ level) && decide (self.required_length ≤ length_top)))

/-- `PlateFeeder.install`; when `level` is `None` it is recomputed from
`ymax` and the water level, otherwise the given level is used as is. -/
def PlateFeeder.install (self : PlateFeeder) (grading_layer : String) (ymax : ℚ)
    (section_coords : List (ℚ × ℚ)) (level : Option ℚ) : Except PyErr Bool :=
  match section_coords with
  | [] => .error .valueError
  | _ :: _ =>
    let lvl := match level with
      | some l => l
      | none => max (yStartOf section_coords - self.waterlvl) (ymax - self.waterlvl)
    .ok (self.design_type.contains grading_layer &&
      (decide (self.h_dry ≤ lvl) &&
       decide (yEndOf section_coords ≤ lvl + self.top_installation)))

/-- `Vessel.install`. -/
def Vessel.install (self : Vessel) (grading_layer : String)
    (section_coords : List (ℚ × ℚ)) : Except PyErr Bool :=
  match section_coords with
  | [] => .error .valueError
  | _ :: _ =>
    .ok (self.design_type.contains grading_layer &&
      decide (yEndOf section_coords ≤
        self.waterlvl - (self.installation_waterdepth + self.ukc)))

/-- The loading chart translated to the resolved location, as built by
`Excavator.chart_location` (unflipped: `x + xloc`) and
`Excavator.rotate_loading_chart` (flipped: `x - 2*(x - xloc) - xloc = xloc - x`);
keys are shifted by `yloc` in both cases. -/
def excShiftedChart (self : Excavator) (xloc yloc : ℚ) (flip : Bool) :
    List (ℚ × List (ℚ × ℚ)) :=
  self.loading_chart.map (fun kr =>
    (kr.1 + yloc,
     kr.2.map (fun xw => ((if flip then xloc - xw.1 else xw.1 + xloc), xw.2))))

/-- The chart row keyed at a given elevation (dict lookup `load_chart[y]`). -/
def chartRowAt (chart : List (ℚ × List (ℚ × ℚ))) (y : ℚ) : List (ℚ × ℚ) :=
  match chart.find? (fun kr => decide (kr.1 = y)) with
  | some kr => kr.2
  | none => []

/-- The chart elevation serving a section elevation `d`: below zero look
downward (`max` of the keys `≤ d`), at or above zero look upward (`min` of the
keys `≥ d`); `none` when no key exists on the required side (the code then
does `return False`). -/
def excYchartAt (chart : List (ℚ × List (ℚ × ℚ))) (d : ℚ) : Option ℚ :=
  let keys := chart.map Prod.fst
  if d < 0 then (keys.filter (fun k => decide (k ≤ d))).max?
  else (keys.filter (fun k => decide (d ≤ k))).min?

/-- Whether every distinct section elevation has a chart row on the required
side (otherwise `install` short-circuits with `return False`). -/
def excLookupsOk (self : Excavator) (a : InstallArgs) : Bool :=
  let r := resolvedLoc self.offset a
  let chart := excShiftedChart self r.1 r.2.1 r.2.2
  ((a.sectionCoords.map Prod.snd).dedup).all (fun d => (excYchartAt chart d).isSome)

/-- The reach test at one distinct section elevation `d`: among the chart
reaches whose weight suffices for the mass, some absolute reach must be at
least the absolute x-coordinate of the section point nearest the equipment
(`min` of the x at that level, `max` when flipped). -/
def excReachAt (self : Excavator) (a : InstallArgs) (d : ℚ) : Bool :=
  let r := resolvedLoc self.offset a
  let flip := r.2.2
  let chart := excShiftedChart self r.1 r.2.1 flip
  match excYchartAt chart d with
  | none => false
  | some yk =>
    let row := chartRowAt chart yk
    let xlevel :=
      let xsAt := (a.sectionCoords.filter (fun cc => decide (cc.2 = d))).map Prod.fst
      if flip then xsAt.max?.getD 0 else xsAt.min?.getD 0
    (row.filter (fun xw => decide (a.mass ≤ xw.2))).any
      (fun xw => decide (|xlevel| ≤ |xw.1|))

/-- `all(all_reach)` over the distinct section elevations. -/
def excAllReach (self : Excavator) (a : InstallArgs) : Bool :=
  ((a.sectionCoords.map Prod.snd).dedup).all (excReachAt self a)

/-- The main feasibility expression of `Excavator.install` (reached only when
no chart-row lookup failed): grading allowed AND (low point dry OR (built
elevation dry AND all levels reachable AND standing length sufficient)). -/
def excMainBool (self : Excavator) (a : InstallArgs) : Bool :=
  self.design_type.contains a.gradingLayer &&
    (decide (self.h_dry ≤ yStartOf a.sectionCoords - self.waterlvl) ||
     (decide (self.h_dry ≤ a.ymax - self.waterlvl) && excAllReach self a &&
      lengthOkOf self.required_length a.lengthTop))

/-- Result of one body of `install` before the slope fallback: an exception,
the short-circuit `return False` of a failed chart lookup, or the main
feasibility decision. -/
inductive InstallStep where
  | err (e : PyErr)
  | earlyFalse
  | main (b : Bool)
deriving DecidableEq, Repr

/-- One body of `Excavator.install` up to the slope fallback.  A section with
fewer than three coordinates or a one-row loading chart (a two-point hull)
makes shapely's `Polygon` raise ValueError inside `chart_location`; an empty
section already fails at `zip(*section_coords)` with the same exception. -/
def excStep (self : Excavator) (a : InstallArgs) : InstallStep :=
  if decide (a.sectionCoords.length < 3) || decide (self.loading_chart.length = 1) then
    .err .valueError
  else if excLookupsOk self a then .main (excMainBool self a)
  else .earlyFalse

/-- The guard of the slope fallback:
`ymax > (waterlvl + h_dry) and not install and slope != (0,0)`;
`wh` is `waterlvl + h_dry`. -/
def slopeGuard (wh : ℚ) (a : InstallArgs) (b : Bool) : Bool :=
  decide (wh < a.ymax) && !b && !(decide (a.slope = (0, 0)))

/-- Arguments of the recursive fallback call: the corner is projected down the
slope, `ymax` is clamped to `waterlvl + h_dry`, the top length becomes twice
the projected corner offset, and the location is resolved afresh. -/
def slopeNext (wh : ℚ) (a : InstallArgs) : InstallArgs :=
  let dy := a.ymax - wh
  let xt := a.xmaxTop - a.slope.2 / a.slope.1 * dy
  { a with
    ymax := wh
    xmaxTop := xt
    lengthTop := some (2 * abs xt)
    xlocEquip := none }

/-- The `install` recursion, with fuel.  `none` is a Python RecursionError.
The division `H/V` raises ZeroDivisionError when `V = 0` (and the guard
already ensures `slope != (0,0)`, so `V = 0` means `H ≠ 0`). -/
def installAux (step : InstallArgs → InstallStep) (wh : ℚ) :
    Nat → InstallArgs → Option (Except PyErr Bool)
  | 0, _ => none
  | n + 1, a =>
    match step a with
    | .err e => some (.error e)
    | .earlyFalse => some (.ok false)
    | .main b =>
      if slopeGuard wh a b then
        if a.slope.1 = 0 then some (.error .zeroDivisionError)
        else installAux step wh n (slopeNext wh a)
      else some (.ok b)

/-- `Excavator.install`.  Fuel 2 suffices (proved below): the fallback call
runs at `ymax = waterlvl + h_dry`, where the guard is false. -/
def Excavator.install (self : Excavator) (a : InstallArgs) : Except PyErr Bool :=
  match installAux (excStep self) (self.waterlvl + self.h_dry) 2 a with
  | some r => r
  | none => .error .recursionError

/-- The crane's radius/boom/payload selection: the smallest tabulated radius at
least the maximal horizontal distance to the section; among its entries with
payload at least the mass, the greatest boom (the maximal stacked index) and
the greatest payload.  `(none, 0, 0)` is the `M_max = -inf, r = l_boom = 0`
sentinel, produced both when no radius is large enough (pandas `min` of an
empty index is NaN and selects nothing) and when no payload suffices. -/
def craneSelection (self : Crane) (a : InstallArgs) : Option ℚ × ℚ × ℚ :=
  let xs := a.sectionCoords.map Prod.fst
  let xloc := (resolvedLoc self.offset a).1
  let maxDistX := ((xs.map (fun x => |x - xloc|)).max?).getD 0
  let radii := self.loading_chart.map Prod.fst
  match (radii.filter (fun r => decide (maxDistX ≤ r))).min? with
  | none => (none, 0, 0)
  | some r0 =>
    let entries :=
      (((self.loading_chart.filter (fun kr => decide (kr.1 = r0))).map Prod.snd).flatten).filter
        (fun bw => decide (a.mass ≤ bw.2))
    match entries with
    | [] => (none, 0, 0)
    | e :: es =>
      (some ((((e :: es).map Prod.snd).max?).getD 0), r0,
       (((e :: es).map Prod.fst).max?).getD 0)

/-- The main feasibility expression of `Crane.install`: grading allowed AND
(low point dry OR (built elevation dry AND mass within the selected payload
AND the vertical gap within `sqrt(l_boom² - r²)` AND standing length
sufficient)). -/
def craneMainBool (self : Crane) (a : InstallArgs) : Bool :=
  let sel := craneSelection self a
  let massOk := match sel.1 with
    | none => false
    | some m => decide (a.mass ≤ m)
  let h := (resolvedLoc self.offset a).2.1 - yEndOf a.sectionCoords
  let hOk := sqrtLe h (sel.2.2 ^ 2 - sel.2.1 ^ 2)
  self.design_type.contains a.gradingLayer &&
    (decide (self.h_dry ≤ yStartOf a.sectionCoords - self.waterlvl) ||
     (decide (self.h_dry ≤ a.ymax - self.waterlvl) && massOk && hOk &&
      lengthOkOf self.required_length a.lengthTop))

/-- One body of `Crane.install` up to the slope fallback (the crane builds no
polygon, so only the empty section raises). -/
def craneStep (self : Crane) (a : InstallArgs) : InstallStep :=
  if a.sectionCoords.isEmpty then .err .valueError
  else .main (craneMainBool self a)

/-- `Crane.install`. -/
def Crane.install (self : Crane) (a : InstallArgs) : Except PyErr Bool :=
  match installAux (craneStep self) (self.waterlvl + self.h_dry) 2 a with
  | some r => r
  | none => .error .recursionError

/-- The instrument mounted on a barge (`self.instance`). -/
inductive Mounted where
  | crane (c : Crane)
  | excavator (e : Excavator)
  | truck (t : Truck)
  | plateFeeder (p : PlateFeeder)
deriving DecidableEq, Repr

/-- `self.instance.design_type` keys. -/
def Mounted.design_type : Mounted → List String
  | .crane c => c.design_type
  | .excavator e => e.design_type
  | .truck t => t.design_type
  | .plateFeeder p => p.design_type

/-- `h_dry` of the mounted instrument. -/
def Mounted.h_dry : Mounted → ℚ
  | .crane c => c.h_dry
  | .excavator e => e.h_dry
  | .truck t => t.h_dry
  | .plateFeeder p => p.h_dry

/-- The clearance test of `Barge.install`:
`y_end >= (waterlvl - installation_waterdepth) - ukc`. -/
def bargeClearance (self : Barge) (coords : List (ℚ × ℚ)) : Bool :=
  decide (self.waterlvl - self.installation_waterdepth - self.ukc ≤ yEndOf coords)

/-- The argument record of the clearance-branch delegation of `Barge.install`:
slope-adjusted location from `location_equipment` with the barge convention,
infinite standing length, slope disabled.  Assumes `slope.1 ≠ 0` (the division
is guarded by the caller). -/
def bargeDelegatedArgs (self : Barge) (offset : ℚ) (grading_layer : String)
    (slope : ℚ × ℚ) (coords : List (ℚ × ℚ)) (xmax_top mass : ℚ) : InstallArgs :=
  let yIwd := self.waterlvl - self.installation_waterdepth
  let loc := location_equipment
      ((yEndOf coords - yIwd) * slope.2 / slope.1 + self.margin_x + offset)
      (xtopOf coords) coords true yIwd self.height 0
  { gradingLayer := grading_layer
    ymax := self.waterlvl + self.height
    sectionCoords := coords
    xmaxTop := xmax_top
    mass := mass
    lengthTop := none
    slope := (0, 0)
    xlocEquip := some (loc.1, loc.2.1) }

/-- The clearance-branch delegation to a mounted crane, after the reparenting
`instance.waterlvl = waterlvl; instance.h_dry = 0`. -/
def bargeCraneDelegated (self : Barge) (c : Crane) (grading_layer : String)
    (slope : ℚ × ℚ) (coords : List (ℚ × ℚ)) (xmax_top mass : ℚ) :
    Except PyErr Bool :=
  if slope.1 = 0 then .error .zeroDivisionError
  else Crane.install { c with waterlvl := self.waterlvl, h_dry := 0 }
    (bargeDelegatedArgs self c.offset grading_layer slope coords xmax_top mass)

/-- Accepted parameter names of `Truck.install`. -/
def truckInstallParams : List String :=
  ["self", "layer", "grading_layer", "ymax", "section_coords", "length_top", "plot"]

/-- Parameters of `Truck.install` without a default value. -/
def truckInstallRequiredParams : List String :=
  ["layer", "grading_layer", "ymax", "section_coords", "length_top"]

/-- The keyword arguments `Barge.install` passes when the mounted instrument is
a `Truck` or a `PlateFeeder`. -/
def bargeTruckCallKeywords : List String :=
  ["layer", "grading_layer", "ymax", "section_coords", "level"]

/-- A Python keyword call binds: every keyword must be an accepted parameter
and every parameter without a default must receive a value. -/
def callAccepted (params required keywords : List String) : Bool :=
  keywords.all (fun k => params.contains k) &&
    required.all (fun k => keywords.contains k)

/-- The argument record of the second, always-run crane delegation of
`Barge.install` (horizontal midpoint of the section, vertical position at the
floating installation depth plus deck height, slope disabled, infinite
standing length). -/
def bargeCraneSecondArgs (self : Barge) (grading_layer : String)
    (coords : List (ℚ × ℚ)) (xmax_top mass : ℚ) : InstallArgs :=
  let xs := coords.map Prod.fst
  { gradingLayer := grading_layer
    ymax := self.waterlvl + self.height
    sectionCoords := coords
    xmaxTop := xmax_top
    mass := mass
    lengthTop := none
    slope := (0, 0)
    xlocEquip := some ((xs.min?.getD 0 + xs.max?.getD 0) / 2,
      self.waterlvl - self.installation_waterdepth + self.height) }

/-- `Barge.install`.  Returns the decision together with the state of the
mounted instrument after the call (the reparenting of `waterlvl`/`h_dry` is a
plain attribute mutation in the source and is never undone). -/
def Barge.install (self : Barge) (inst : Mounted) (grading_layer : String)
    (slope : ℚ × ℚ) (section_coords : List (ℚ × ℚ)) (xmax_top mass : ℚ) :
    Except PyErr (Bool × Mounted) :=
  match section_coords with
  | [] => .error .valueError
  | _ :: _ =>
    let yIwd := self.waterlvl - self.installation_waterdepth
    if (inst.design_type).contains grading_layer then
      match inst with
      | .crane c =>
        let step1 : Except PyErr Bool :=
          if bargeClearance self section_coords then
            bargeCraneDelegated self c grading_layer slope section_coords xmax_top mass
          else .ok false
        let c1 : Crane :=
          if bargeClearance self section_coords then
            { c with waterlvl := self.waterlvl, h_dry := 0 }
          else c
        match step1 with
        | .error er => .error er
        | .ok _ =>
          match Crane.install c1
              (bargeCraneSecondArgs self grading_layer section_coords xmax_top mass) with
          | .error er => .error er
          | .ok _ => .ok (true, .crane c1)
      | .excavator e =>
        let step1 : Except PyErr Bool :=
          if bargeClearance self section_coords then
            if slope.1 = 0 then .error .zeroDivisionError
            else Excavator.install { e with waterlvl := self.waterlvl, h_dry := 0 }
              (bargeDelegatedArgs self e.offset grading_layer slope section_coords
                xmax_top mass)
          else .ok false
        match step1 with
        | .error er => .error er
        | .ok _ =>
          let e2 : Excavator := { e with waterlvl := self.waterlvl, h_dry := 0 }
          let xs := section_coords.map Prod.fst
          match Excavator.install e2
              { gradingLayer := grading_layer
                ymax := self.waterlvl + self.height
                sectionCoords := section_coords
                xmaxTop := xmax_top
                mass := mass
                lengthTop := none
                slope := (0, 0)
                xlocEquip := some (xs.max?.getD 0, yIwd + self.height) } with
          | .error er => .error er
          | .ok r => .ok (r, .excavator e2)
      | .truck _ =>
        .error .typeError
      | .plateFeeder p =>
        match PlateFeeder.install p grading_layer (self.waterlvl + self.height)
            section_coords (some (self.waterlvl + self.height)) with
        | .error er => .error er
        | .ok r => .ok (r, .plateFeeder p)
    else .ok (false, inst)

/-- One entry of a `design_type` mapping; each field is present or absent. -/
structure DesignEntry where
  cost : Option ℚ
  co2 : Option ℚ
  production_rate : Option ℚ
deriving DecidableEq, Repr

/-- `Equipment.get_production_rate`.  A grading with no `production_rate` entry
makes the source assign the default 1 into the dict and then execute
`raise UserWarning(...)`, so the call aborts with the exception instead of
returning the substituted rate. -/
def Equipment.get_production_rate (design_type : List (String × DesignEntry))
    (grading_layer : String) : Except PyErr ℚ :=
  match design_type.find? (fun g => g.1 == grading_layer) with
  | none => .error .keyError
  | some ge =>
    match ge.2.production_rate with
    | none => .error .userWarning
    | some r => .ok r

/-- Extracts the post-call state of the mounted instrument. -/
def postMounted (r : Except PyErr (Bool × Mounted)) : Option Mounted :=
  match r with
  | .ok p => some p.2
  | .error _ => none

/-- An excavator whose grading mapping holds only `"A"`. -/
def excDeg : Excavator :=
  { design_type := ["A"]
    waterlvl := 0
    loading_chart := [(0, [(5, 10)]), (1, [(5, 10)])]
    h_dry := 0
    required_length := 0
    offset := 3 }

/-- A request for grading `"B"` with the degenerate slope `(0, 1)` and the
built elevation above the dry margin. -/
def argsDeg : InstallArgs :=
  { gradingLayer := "B"
    ymax := 1
    sectionCoords := [(0, 0), (4, 0), (4, 1), (0, 1)]
    xmaxTop := 4
    mass := 1
    lengthTop := some 4
    slope := (0, 1)
    xlocEquip := none }

/-- A crane with a single radius-10 row. -/
def craneDeg : Crane :=
  { design_type := ["A"]
    waterlvl := 0
    required_length := 0
    loading_chart := [(10, [(12, 20)])]
    h_dry := 0
    offset := 3 }

/-- A crane request for the absent grading `"B"` with slope `(0, 1)`. -/
def argsCDeg : InstallArgs :=
  { gradingLayer := "B"
    ymax := 1
    sectionCoords := [(0, 0), (4, 0)]
    xmaxTop := 4
    mass := 1
    lengthTop := some 4
    slope := (0, 1)
    xlocEquip := none }

/-- An excavator request whose section sits entirely above the dry margin but
whose top elevation (9) lies above every chart row. -/
def argsDry : InstallArgs :=
  { gradingLayer := "A"
    ymax := 5
    sectionCoords := [(0, 5), (4, 5), (4, 9), (0, 9)]
    xmaxTop := 0
    mass := 1
    lengthTop := some 4
    slope := (1, 1)
    xlocEquip := none }

/-- A barge floating two metres above its installation depth. -/
def bargeC2 : Barge :=
  { waterlvl := 0
    installation_waterdepth := 2
    height := 1
    ukc := 0
    margin_x := 2 }

/-- A crane whose only chart entry lifts at most 1 tonne. -/
def craneC2 : Crane :=
  { design_type := ["A"]
    waterlvl := 5
    required_length := 0
    loading_chart := [(10, [(12, 1)])]
    h_dry := 3
    offset := 3 }

/-- A section whose top (y = -1) is above the floating clearance threshold
(y = -2) of `bargeC2`. -/
def coordsC2 : List (ℚ × ℚ) := [(0, -3), (4, -3), (4, -1), (0, -1)]

/-- A barge with deck 2 above the water line and zero installation depth. -/
def bargeC6 : Barge :=
  { waterlvl := 0
    installation_waterdepth := 0
    height := 2
    ukc := 0
    margin_x := 2 }

/-- An excavator with non-zero `waterlvl` and `h_dry`, to observe the
reparenting mutation. -/
def excC6 : Excavator :=
  { design_type := ["A"]
    waterlvl := 1
    loading_chart := [(0, [(5, 10)]), (1, [(5, 10)])]
    h_dry := 2
    required_length := 0
    offset := 3 }

/-- A fully submerged section (top y = -1), below the clearance threshold of
`bargeC6`. -/
def coordsC6 : List (ℚ × ℚ) := [(0, -2), (4, -2), (4, -1), (0, -1)]

/-- The barge of the spec scenario: deck at `waterlvl + height = 5`. -/
def bargeC8 : Barge :=
  { waterlvl := 3
    installation_waterdepth := 1
    height := 2
    ukc := 0
    margin_x := 2 }

/-- A truck that can place grading `"A"`. -/
def truckC8 : Truck :=
  { design_type := ["A"]
    waterlvl := 0
    required_length := 0
    h_dry := 0 }

/-- The scenario section with top at y = 4. -/
def coordsC8 : List (ℚ × ℚ) := [(0, 3), (4, 3), (4, 4), (0, 4)]

/-- A design-type mapping whose grading `"A"` has no production-rate entry. -/
def dtC7 : List (String × DesignEntry) :=
  [("A", { cost := some 10, co2 := some 5, production_rate := none })]

/-- Whether an `install` call returned (rather than raised). -/
def okB (r : Except PyErr Bool) : Bool :=
  match r with
  | .ok _ => true
  | .error _ => false

/-- A plate feeder that can place grading `"A"`. -/
def pfW : PlateFeeder :=
  { design_type := ["A"]
    top_installation := 5
    waterlvl := 0
    h_dry := 0 }

/-- A vessel that can place grading `"A"`. -/
def vesselW : Vessel :=
  { design_type := ["A"]
    waterlvl := 0
    installation_waterdepth := 3
    ukc := 0 }

/-- A request for the absent grading `"B"` with a regular slope `(1, 1)`. -/
def argsAbs : InstallArgs :=
  { gradingLayer := "B"
    ymax := 1
    sectionCoords := [(0, 0), (4, 0), (4, 1), (0, 1)]
    xmaxTop := 4
    mass := 1
    lengthTop := some 4
    slope := (1, 1)
    xlocEquip := none }

/-- The same request for the allowed grading `"A"`: every chart lookup
succeeds and the whole section is above the dry margin. -/
def argsDryOk : InstallArgs :=
  { gradingLayer := "A"
    ymax := 1
    sectionCoords := [(0, 0), (4, 0), (4, 1), (0, 1)]
    xmaxTop := 4
    mass := 1
    lengthTop := some 4
    slope := (1, 1)
    xlocEquip := none }

/-- A crane with dry margin 1 and a single radius-10 row. -/
def craneW9 : Crane :=
  { design_type := ["A"]
    waterlvl := 0
    required_length := 0
    loading_chart := [(10, [(12, 20)])]
    h_dry := 1
    offset := 3 }

/-- A section stretching to x = 30, beyond every tabulated radius of
`craneW9`, with slope `(0, 0)`. -/
def argsW9 : InstallArgs :=
  { gradingLayer := "A"
    ymax := 1
    sectionCoords := [(0, 0), (30, 0), (30, 1)]
    xmaxTop := 0
    mass := 1
    lengthTop := some 4
    slope := (0, 0)
    xlocEquip := none }

/-- Claim C1 (counterexample): for the grading `"B"` absent from the
excavator's capability mapping, `install` does not return false for every
slope: with slope `(0, 1)` and the built elevation above the dry margin the
slope fallback divides by the zero vertical component and raises
ZeroDivisionError. -/
theorem excavator_absent_grading_degenerate_slope :
    excDeg.design_type.contains argsDeg.gradingLayer = false ∧
    Excavator.install excDeg argsDeg = .error .zeroDivisionError := by
  exact ⟨by with_unfolding_all rfl, by with_unfolding_all rfl⟩

/-- Claim C3 (counterexample): grading allowed and the whole section above
`waterlvl + h_dry` (lowest point 5, margin 0), yet `install` returns false
because the elevation 9 has no chart row at or above it: the short-circuit
`return False` fires before the dry-low-point disjunct is ever evaluated. -/
theorem excavator_dry_low_point_unreachable_row :
    excDeg.design_type.contains argsDry.gradingLayer = true ∧
    decide (excDeg.h_dry ≤ yStartOf argsDry.sectionCoords - excDeg.waterlvl) = true ∧
    Excavator.install excDeg argsDry = .ok false := by
  exact ⟨by with_unfolding_all rfl, by with_unfolding_all rfl, by with_unfolding_all rfl⟩

/-- Claim C5 (counterexample): a land-based (non-barge) call on a section
lying entirely at non-negative x returns the mirror flag `false`, not `true`:
the equipment moves to the left of `xpoint` and the chart is used unflipped. -/
theorem location_flag_land_nonneg :
    (([(0, 0), (4, 0)] : List (ℚ × ℚ)).all (fun cc => decide (0 ≤ cc.1))) = true ∧
    location_equipment 3 10 [(0, 0), (4, 0)] false 0 0 7 = (7, 7, false) := by
  exact ⟨by with_unfolding_all rfl, by with_unfolding_all rfl⟩

/-- Claim C6 (code bug): `Barge.install` reparents `waterlvl`/`h_dry` onto the
mounted excavator and never restores them: the instrument enters with
`h_dry = 2` and is left with `h_dry = 0` after the call returns. -/
theorem barge_mutation_not_restored :
    excC6.h_dry = 2 ∧
    (postMounted (Barge.install bargeC6 (.excavator excC6) "A" (1, 1) coordsC6 0 5)).map
      Mounted.h_dry = some 0 := by
  exact ⟨by with_unfolding_all rfl, by with_unfolding_all rfl⟩

/-- Claim C7 (code bug): for a grading present in the mapping but with no
production-rate entry, `get_production_rate` raises `UserWarning` (a plain
`raise`, not a warning), aborting instead of returning the substituted 1. -/
theorem production_rate_missing_aborts :
    Equipment.get_production_rate dtC7 "A" = .error .userWarning := by
  with_unfolding_all rfl

/-- Claim C8 (code bug): the truck delegation of `Barge.install` passes the
keyword `level`, which `Truck.install` does not accept (and omits the required
`length_top`), so the call raises TypeError instead of returning the truck's
decision: deck at `waterlvl + height = 5`, section top at y = 4. -/
theorem barge_truck_delegation_raises :
    callAccepted truckInstallParams truckInstallRequiredParams bargeTruckCallKeywords = false ∧
    Barge.install bargeC8 (.truck truckC8) "A" (1, 1) coordsC8 0 5 = .error .typeError := by
  exact ⟨by with_unfolding_all rfl, by with_unfolding_all rfl⟩

/-- Claim C9 (counterexample): a `Crane.install` call is not total for every
input: with slope `(0, 1)`, built elevation above the dry margin and a failing
direct test, the slope fallback raises ZeroDivisionError. -/
theorem crane_degenerate_slope_raises :
    Crane.install craneDeg argsCDeg = .error .zeroDivisionError := by
  with_unfolding_all rfl

/-- Claim C2 (counterexample): barge with mounted crane, grading allowed,
clearance condition met (section top -1 at or above threshold -2), the
delegated crane decision is false (mass 100 exceeds every payload), yet
`Barge.install` returns true: the stored unconditional-true assignment runs
regardless of the clearance condition and overwrites the delegated decision. -/
theorem barge_crane_overrides_delegated_decision :
    bargeClearance bargeC2 coordsC2 = true ∧
    bargeCraneDelegated bargeC2 craneC2 "A" (1, 1) coordsC2 4 100 = .ok false ∧
    Barge.install bargeC2 (.crane craneC2) "A" (1, 1) coordsC2 4 100 =
      .ok (true, .crane { craneC2 with waterlvl := 0, h_dry := 0 }) := by
  exact ⟨by with_unfolding_all rfl, by with_unfolding_all rfl, by with_unfolding_all rfl⟩

theorem installAux_succ (step : InstallArgs → InstallStep) (wh : ℚ) (n : Nat)
    (a : InstallArgs) :
    installAux step wh (n + 1) a =
      match step a with
      | .err e => some (.error e)
      | .earlyFalse => some (.ok false)
      | .main b =>
        if slopeGuard wh a b then
          if a.slope.1 = 0 then some (.error .zeroDivisionError)
          else installAux step wh n (slopeNext wh a)
        else some (.ok b) := rfl

theorem slopeNext_ymax (wh : ℚ) (a : InstallArgs) : (slopeNext wh a).ymax = wh := rfl

theorem slopeNext_sectionCoords (wh : ℚ) (a : InstallArgs) :
    (slopeNext wh a).sectionCoords = a.sectionCoords := rfl

theorem slopeNext_gradingLayer (wh : ℚ) (a : InstallArgs) :
    (slopeNext wh a).gradingLayer = a.gradingLayer := rfl

theorem slopeGuard_next_false (wh : ℚ) (a : InstallArgs) (b : Bool) :
    slopeGuard wh (slopeNext wh a) b = false := by
  have h : decide (wh < (slopeNext wh a).ymax) = false := by
    rw [slopeNext_ymax]
    exact decide_eq_false (lt_irrefl wh)
  simp [slopeGuard, h]

theorem installAux_two_isSome (step : InstallArgs → InstallStep) (wh : ℚ)
    (a : InstallArgs) :
    (installAux step wh 2 a).isSome = true := by
  have e2 : (2 : Nat) = 1 + 1 := rfl
  rw [e2, installAux_succ]
  split
  · rfl
  · rfl
  · rename_i b heq
    by_cases hg : slopeGuard wh a b = true
    · rw [if_pos hg]
      by_cases hz : a.slope.1 = 0
      · rw [if_pos hz]; rfl
      · rw [if_neg hz, installAux_succ]
        split
        · rfl
        · rfl
        · rename_i b2 heq2
          rw [if_neg (by simp [slopeGuard_next_false])]
          rfl
    · rw [if_neg hg]; rfl

/-- Claim C4: for every excavator and crane and every input whose built
elevation is at or above `waterlvl + h_dry`, the slope-fallback recursion of
`install` terminates within fuel 2 (it never exhausts the fuel), because the
fallback call strictly decreases the working elevation to `waterlvl + h_dry`
and a call whose elevation is at or below that threshold never takes the
fallback branch. -/
theorem slope_fallback_terminates (e : Excavator) (c : Crane) (ea ca : InstallArgs)
    (he : e.waterlvl + e.h_dry ≤ ea.ymax) (hc : c.waterlvl + c.h_dry ≤ ca.ymax) :
    (installAux (excStep e) (e.waterlvl + e.h_dry) 2 ea).isSome = true ∧
    (installAux (craneStep c) (c.waterlvl + c.h_dry) 2 ca).isSome = true ∧
    (∀ wh : ℚ, ∀ a : InstallArgs, ∀ b : Bool, slopeGuard wh a b = true →
      (slopeNext wh a).ymax < a.ymax ∧
      ∀ b2 : Bool, slopeGuard wh (slopeNext wh a) b2 = false) := by
  refine ⟨installAux_two_isSome _ _ _, installAux_two_isSome _ _ _, ?_⟩
  intro wh a b hgd
  have hlt : wh < a.ymax := by
    have h1 : decide (wh < a.ymax) = true := by
      by_contra hcon
      simp only [Bool.not_eq_true] at hcon
      simp [slopeGuard, hcon] at hgd
    exact of_decide_eq_true h1
  refine ⟨by rw [slopeNext_ymax]; exact hlt, fun b2 => slopeGuard_next_false wh a b2⟩

theorem installAux_err (step : InstallArgs → InstallStep) (wh : ℚ) (n : Nat)
    (a : InstallArgs) (e' : PyErr) (h : step a = .err e') :
    installAux step wh (n + 1) a = some (.error e') := by
  rw [installAux_succ, h]

theorem installAux_earlyFalse (step : InstallArgs → InstallStep) (wh : ℚ) (n : Nat)
    (a : InstallArgs) (h : step a = .earlyFalse) :
    installAux step wh (n + 1) a = some (.ok false) := by
  rw [installAux_succ, h]

theorem installAux_main (step : InstallArgs → InstallStep) (wh : ℚ) (n : Nat)
    (a : InstallArgs) (b : Bool) (h : step a = .main b) :
    installAux step wh (n + 1) a =
      if slopeGuard wh a b then
        if a.slope.1 = 0 then some (.error .zeroDivisionError)
        else installAux step wh n (slopeNext wh a)
      else some (.ok b) := by
  rw [installAux_succ, h]

theorem excStep_eq_of_ok (e : Excavator) (a : InstallArgs)
    (h3 : 3 ≤ a.sectionCoords.length) (hch : e.loading_chart.length ≠ 1) :
    excStep e a =
      if excLookupsOk e a then .main (excMainBool e a) else .earlyFalse := by
  unfold excStep
  have h1 : decide (a.sectionCoords.length < 3) = false := decide_eq_false (by omega)
  have h2 : decide (e.loading_chart.length = 1) = false := decide_eq_false hch
  rw [h1, h2]
  rfl

theorem excMainBool_false_of_absent (e : Excavator) (a : InstallArgs)
    (hg : e.design_type.contains a.gradingLayer = false) :
    excMainBool e a = false := by
  unfold excMainBool
  rw [hg, Bool.false_and]

theorem craneMainBool_false_of_absent (c : Crane) (a : InstallArgs)
    (hg : c.design_type.contains a.gradingLayer = false) :
    craneMainBool c a = false := by
  unfold craneMainBool
  rw [hg, Bool.false_and]

theorem craneStep_main (c : Crane) (a : InstallArgs)
    (hne : a.sectionCoords ≠ []) :
    craneStep c a = .main (craneMainBool c a) := by
  unfold craneStep
  have hE : a.sectionCoords.isEmpty = false := by
    cases hcc : a.sectionCoords with
    | nil => exact absurd hcc hne
    | cons x xs => rfl
  rw [hE]
  rfl

theorem exc_false_of_absent_core (e : Excavator) (a : InstallArgs)
    (hg : e.design_type.contains a.gradingLayer = false)
    (h3 : 3 ≤ a.sectionCoords.length)
    (hch : e.loading_chart.length ≠ 1)
    (hs : a.slope.1 = 0 → a.slope = (0, 0)) :
    Excavator.install e a = .ok false := by
  have key : ∀ a2 : InstallArgs, a2.sectionCoords = a.sectionCoords →
      a2.gradingLayer = a.gradingLayer →
      excStep e a2 = .earlyFalse ∨ excStep e a2 = .main false := by
    intro a2 hc2 hg2
    rw [excStep_eq_of_ok e a2 (by rw [hc2]; exact h3) hch]
    by_cases hl : excLookupsOk e a2 = true
    · right
      rw [if_pos hl, excMainBool_false_of_absent e a2 (by rw [hg2]; exact hg)]
    · left
      rw [if_neg hl]
  have e2 : (2 : Nat) = 1 + 1 := rfl
  unfold Excavator.install
  rw [e2]
  rcases key a rfl rfl with h | h
  · rw [installAux_earlyFalse _ _ _ _ h]
  · rw [installAux_main _ _ _ _ _ h]
    by_cases hgd : slopeGuard (e.waterlvl + e.h_dry) a false = true
    · rw [if_pos hgd]
      have hz : ¬ a.slope.1 = 0 := by
        intro h0
        simp [slopeGuard, hs h0] at hgd
      rw [if_neg hz]
      rcases key (slopeNext (e.waterlvl + e.h_dry) a) (slopeNext_sectionCoords _ _)
        (slopeNext_gradingLayer _ _) with h2 | h2
      · rw [show (1 : Nat) = 0 + 1 from rfl, installAux_earlyFalse _ _ _ _ h2]
      · rw [show (1 : Nat) = 0 + 1 from rfl, installAux_main _ _ _ _ _ h2,
          if_neg (by simp [slopeGuard_next_false])]
    · rw [if_neg hgd]

theorem crane_false_of_absent_core (c : Crane) (a : InstallArgs)
    (hg : c.design_type.contains a.gradingLayer = false)
    (hne : a.sectionCoords ≠ [])
    (hs : a.slope.1 = 0 → a.slope = (0, 0)) :
    Crane.install c a = .ok false := by
  have key : ∀ a2 : InstallArgs, a2.sectionCoords = a.sectionCoords →
      a2.gradingLayer = a.gradingLayer → craneStep c a2 = .main false := by
    intro a2 hc2 hg2
    rw [craneStep_main c a2 (by rw [hc2]; exact hne),
      craneMainBool_false_of_absent c a2 (by rw [hg2]; exact hg)]
  have e2 : (2 : Nat) = 1 + 1 := rfl
  unfold Crane.install
  rw [e2, installAux_main _ _ _ _ _ (key a rfl rfl)]
  by_cases hgd : slopeGuard (c.waterlvl + c.h_dry) a false = true
  · rw [if_pos hgd]
    have hz : ¬ a.slope.1 = 0 := by
      intro h0
      simp [slopeGuard, hs h0] at hgd
    rw [if_neg hz]
    rw [show (1 : Nat) = 0 + 1 from rfl,
      installAux_main _ _ _ _ _ (key (slopeNext (c.waterlvl + c.h_dry) a)
        (slopeNext_sectionCoords _ _) (slopeNext_gradingLayer _ _)),
      if_neg (by simp [slopeGuard_next_false])]
  · rw [if_neg hgd]

theorem craneInstall_ok_exists (c : Crane) (a : InstallArgs)
    (hne : a.sectionCoords ≠ [])
    (hs : a.slope.1 = 0 → a.slope = (0, 0)) :
    ∃ b : Bool, Crane.install c a = .ok b := by
  have e2 : (2 : Nat) = 1 + 1 := rfl
  unfold Crane.install
  rw [e2, installAux_main _ _ _ _ _ (craneStep_main c a hne)]
  by_cases hgd : slopeGuard (c.waterlvl + c.h_dry) a (craneMainBool c a) = true
  · rw [if_pos hgd]
    have hz : ¬ a.slope.1 = 0 := by
      intro h0
      simp [slopeGuard, hs h0] at hgd
    rw [if_neg hz]
    rw [show (1 : Nat) = 0 + 1 from rfl,
      installAux_main _ _ _ _ _ (craneStep_main c (slopeNext (c.waterlvl + c.h_dry) a)
        (by rw [slopeNext_sectionCoords]; exact hne)),
      if_neg (by simp [slopeGuard_next_false])]
    exact ⟨_, rfl⟩
  · rw [if_neg hgd]
    exact ⟨_, rfl⟩

/-- Claim C1 (amended): for every equipment kind and every grading class absent
from its capability mapping, `install` returns false — for every non-empty
section (at least the three vertices a polygon needs, for the excavator, whose
chart must also not consist of a single row, the degenerate two-point hull),
and, for `Excavator` and `Crane`, for every slope that is not of the
degenerate form `(0, H)` with `H ≠ 0` (there the fallback raises
ZeroDivisionError instead of returning). -/
theorem absent_grading_infeasible
    (t : Truck) (p : PlateFeeder) (e : Excavator) (c : Crane) (v : Vessel)
    (bg : Barge) (m : Mounted) (g : String) (coords : List (ℚ × ℚ))
    (ymax length_top xmax_top mass : ℚ) (level : Option ℚ) (slope : ℚ × ℚ)
    (ea ca : InstallArgs)
    (hco : coords ≠ [])
    (ht : t.design_type.contains g = false)
    (hp : p.design_type.contains g = false)
    (hv : v.design_type.contains g = false)
    (hm : m.design_type.contains g = false)
    (hea : e.design_type.contains ea.gradingLayer = false)
    (h3 : 3 ≤ ea.sectionCoords.length)
    (hch : e.loading_chart.length ≠ 1)
    (hse : ea.slope.1 = 0 → ea.slope = (0, 0))
    (hca : c.design_type.contains ca.gradingLayer = false)
    (hcne : ca.sectionCoords ≠ [])
    (hsc : ca.slope.1 = 0 → ca.slope = (0, 0)) :
    Truck.install t g ymax coords length_top = .ok false ∧
    PlateFeeder.install p g ymax coords level = .ok false ∧
    Excavator.install e ea = .ok false ∧
    Crane.install c ca = .ok false ∧
    Vessel.install v g coords = .ok false ∧
    Barge.install bg m g slope coords xmax_top mass = .ok (false, m) := by
  obtain ⟨x0, xs0, rfl⟩ : ∃ x0 xs0, coords = x0 :: xs0 := by
    cases coords with
    | nil => exact absurd rfl hco
    | cons x xs => exact ⟨x, xs, rfl⟩
  refine ⟨?_, ?_, exc_false_of_absent_core e ea hea h3 hch hse,
    crane_false_of_absent_core c ca hca hcne hsc, ?_, ?_⟩
  · have ht2 : ¬ g ∈ t.design_type := by simpa using ht
    simp [Truck.install, ht2]
  · have hp2 : ¬ g ∈ p.design_type := by simpa using hp
    simp [PlateFeeder.install, hp2]
  · have hv2 : ¬ g ∈ v.design_type := by simpa using hv
    simp [Vessel.install, hv2]
  · have hm2 : ¬ g ∈ m.design_type := by simpa using hm
    simp [Barge.install, hm2]

/-- Claim C1 (witness): the amended statement at a concrete instance. -/
theorem absent_grading_infeasible_wit :
    Truck.install truckC8 "B" 1 [(0, 0), (4, 0), (4, 1), (0, 1)] 4 = .ok false ∧
    PlateFeeder.install pfW "B" 1 [(0, 0), (4, 0), (4, 1), (0, 1)] (some 1) = .ok false ∧
    Excavator.install excDeg argsAbs = .ok false ∧
    Crane.install craneDeg argsAbs = .ok false ∧
    Vessel.install vesselW "B" [(0, 0), (4, 0), (4, 1), (0, 1)] = .ok false ∧
    Barge.install bargeC8 (.truck truckC8) "B" (1, 1) [(0, 0), (4, 0), (4, 1), (0, 1)] 4 1 =
      .ok (false, .truck truckC8) :=
  absent_grading_infeasible truckC8 pfW excDeg craneDeg vesselW bargeC8
    (.truck truckC8) "B" [(0, 0), (4, 0), (4, 1), (0, 1)] 1 4 4 1 (some 1) (1, 1)
    argsAbs argsAbs
    (by simp)
    (by decide) (by decide) (by decide) (by decide) (by decide)
    (by decide) (by decide)
    (by intro h0; exact absurd h0 one_ne_zero)
    (by decide) (by decide)
    (by intro h0; exact absurd h0 one_ne_zero)

/-- Claim C3 (amended): if the grading is allowed, every distinct section
elevation has a chart row on its side, the polygon arities are satisfiable
(three section vertices, not a one-row chart), and the lowest section point is
at or above `waterlvl + h_dry`, then `Excavator.install` returns true;
without the chart-lookup condition the short-circuit `return False` decides
first, even when the dry-low-point disjunct holds. -/
theorem excavator_dry_low_point_feasible (e : Excavator) (a : InstallArgs)
    (hg : e.design_type.contains a.gradingLayer = true)
    (h3 : 3 ≤ a.sectionCoords.length)
    (hch : e.loading_chart.length ≠ 1)
    (hl : excLookupsOk e a = true)
    (hd : e.h_dry ≤ yStartOf a.sectionCoords - e.waterlvl) :
    Excavator.install e a = .ok true := by
  have hmain : excMainBool e a = true := by
    unfold excMainBool
    rw [hg, decide_eq_true hd]
    simp
  have hstep : excStep e a = .main true := by
    rw [excStep_eq_of_ok e a h3 hch, if_pos hl, hmain]
  have e2 : (2 : Nat) = 1 + 1 := rfl
  unfold Excavator.install
  rw [e2, installAux_main _ _ _ _ _ hstep]
  have hgd : slopeGuard (e.waterlvl + e.h_dry) a true = false := by
    simp [slopeGuard]
  simp [hgd]

/-- Claim C3 (witness): the amended statement at a concrete instance. -/
theorem excavator_dry_low_point_feasible_wit :
    Excavator.install excDeg argsDryOk = .ok true :=
  excavator_dry_low_point_feasible excDeg argsDryOk (by decide) (by decide)
    (by decide) (by with_unfolding_all rfl) (by with_unfolding_all decide)

/-- Claim C5 (amended): for a section lying entirely at non-negative x, a
land-based (non-barge) caller gets the mirror flag `false` (the equipment is
placed at `xpoint - sum(args)`, on the chart's own hand), while a barge caller
gets the flag `true` and the vertical location
`y_installation_waterdepth + height`: the two conventions are opposite, but
with the flag values swapped relative to the claim. -/
theorem location_side_convention (argsSum xpoint yiwd height ymax : ℚ)
    (coords : List (ℚ × ℚ))
    (hx : coords.all (fun cc => decide (0 ≤ cc.1)) = true) :
    location_equipment argsSum xpoint coords false yiwd height ymax
      = (xpoint - argsSum, ymax, false) ∧
    location_equipment argsSum xpoint coords true yiwd height ymax
      = (xpoint + argsSum, yiwd + height, true) := by
  constructor <;> simp [location_equipment, hx]

/-- Claim C5 (witness): the amended statement at a concrete instance. -/
theorem location_side_convention_wit :
    location_equipment 3 10 [(0, 0), (4, 0)] false 0 0 7 = (10 - 3, 7, false) ∧
    location_equipment 3 10 [(0, 0), (4, 0)] true 0 0 7 = (10 + 3, 0 + 0, true) :=
  location_side_convention 3 10 0 0 7 [(0, 0), (4, 0)] (by with_unfolding_all rfl)

/-- Claim C9 (amended): a `Crane.install` call on a non-empty section whose
slope is not of the degenerate form `(0, H)` with `H ≠ 0` always returns a
boolean (no exception); and when no tabulated payload at the selected radius
reaches the required mass (the negative-infinity sentinel, also produced when
every radius is smaller than the section distance), the low point is not above
the dry margin, and the slope is `(0, 0)` (no fallback), the call returns
false. -/
theorem crane_total_with_sentinel (c : Crane) (a : InstallArgs)
    (hne : a.sectionCoords ≠ [])
    (hs : a.slope.1 = 0 → a.slope = (0, 0)) :
    okB (Crane.install c a) = true ∧
    ((craneSelection c a).1 = none →
      ¬ (c.h_dry ≤ yStartOf a.sectionCoords - c.waterlvl) →
      a.slope = (0, 0) →
      Crane.install c a = .ok false) := by
  constructor
  · obtain ⟨b, hb⟩ := craneInstall_ok_exists c a hne hs
    rw [hb]
    rfl
  · intro hsel hdry hslope
    have hmain : craneMainBool c a = false := by
      simp [craneMainBool, hsel, hdry]
    have hstep : craneStep c a = .main false := by
      rw [craneStep_main c a hne, hmain]
    have e2 : (2 : Nat) = 1 + 1 := rfl
    unfold Crane.install
    rw [e2, installAux_main _ _ _ _ _ hstep]
    have hgd : slopeGuard (c.waterlvl + c.h_dry) a false = false := by
      simp [slopeGuard, hslope]
    simp [hgd]

/-- Claim C9 (witness): the amended statement at a concrete instance (the
section reaches x = 30, beyond the only tabulated radius 10). -/
theorem crane_total_with_sentinel_wit :
    Crane.install craneW9 argsW9 = .ok false :=
  (crane_total_with_sentinel craneW9 argsW9 (by simp [argsW9])
      (by intro h0; rfl)).2
    (by with_unfolding_all rfl) (by with_unfolding_all decide) rfl

/-- Claim C10: when `PlateFeeder.install` receives an explicit `level`, the
decision is independent of both the `ymax` argument and the feeder's
`waterlvl` attribute: two calls differing only in those return the same
result. -/
theorem platefeeder_level_independent (dt : List String) (ti hd wl1 wl2 : ℚ)
    (g : String) (ymax1 ymax2 : ℚ) (coords : List (ℚ × ℚ)) (lvl : ℚ) :
    PlateFeeder.install { design_type := dt, top_installation := ti, waterlvl := wl1, h_dry := hd }
      g ymax1 coords (some lvl) =
    PlateFeeder.install { design_type := dt, top_installation := ti, waterlvl := wl2, h_dry := hd }
      g ymax2 coords (some lvl) := by
  cases coords with
  | nil => rfl
  | cons x xs => rfl

/-- Claim C2 (amended): for every barge with a mounted crane and an allowed
grading (non-empty section; vertical slope component non-zero whenever the
clearance condition is met, else the clearance branch divides by zero),
`Barge.install` returns true: the unconditional-true assignment executes
regardless of the clearance condition, so the delegated crane decision of the
clearance branch is computed and then overwritten, never returned. -/
theorem barge_crane_always_true (bg : Barge) (c : Crane) (g : String)
    (slope : ℚ × ℚ) (coords : List (ℚ × ℚ)) (xmax_top mass : ℚ)
    (hne : coords ≠ [])
    (hg : c.design_type.contains g = true)
    (hcl : bargeClearance bg coords = true → slope.1 ≠ 0) :
    (Barge.install bg (.crane c) g slope coords xmax_top mass).map Prod.fst =
      Except.ok true := by
  obtain ⟨x0, xs0, rfl⟩ : ∃ x0 xs0, coords = x0 :: xs0 := by
    cases coords with
    | nil => exact absurd rfl hne
    | cons x xs => exact ⟨x, xs, rfl⟩
  have hg2 : g ∈ c.design_type := by simpa using hg
  by_cases hclr : bargeClearance bg (x0 :: xs0) = true
  · have hz : slope.1 ≠ 0 := hcl hclr
    obtain ⟨b1, hb1⟩ := craneInstall_ok_exists
      { c with waterlvl := bg.waterlvl, h_dry := 0 }
      (bargeDelegatedArgs bg c.offset g slope (x0 :: xs0) xmax_top mass)
      (by simp [bargeDelegatedArgs]) (by simp [bargeDelegatedArgs])
    obtain ⟨b2, hb2⟩ := craneInstall_ok_exists
      { c with waterlvl := bg.waterlvl, h_dry := 0 }
      (bargeCraneSecondArgs bg g (x0 :: xs0) xmax_top mass)
      (by simp [bargeCraneSecondArgs]) (by simp [bargeCraneSecondArgs])
    simp [Barge.install, Mounted.design_type, hg2, hclr, bargeCraneDelegated,
      hz, hb1, hb2, Except.map]
  · obtain ⟨b2, hb2⟩ := craneInstall_ok_exists c
      (bargeCraneSecondArgs bg g (x0 :: xs0) xmax_top mass)
      (by simp [bargeCraneSecondArgs]) (by simp [bargeCraneSecondArgs])
    simp [Barge.install, Mounted.design_type, hg2, hclr, hb2, Except.map]

/-- Claim C2 (witness): the amended statement at a concrete instance with the
clearance condition met. -/
theorem barge_crane_always_true_wit :
    (Barge.install bargeC2 (.crane craneC2) "A" (1, 1) coordsC2 4 100).map Prod.fst =
      Except.ok true :=
  barge_crane_always_true bargeC2 craneC2 "A" (1, 1) coordsC2 4 100
    (by simp [coordsC2]) (by decide) (by intro h1; exact one_ne_zero)

/-- Claim C4 (witness): the termination statement at concrete instances. -/
theorem slope_fallback_terminates_wit :
    (installAux (excStep excDeg) (excDeg.waterlvl + excDeg.h_dry) 2 argsDeg).isSome = true ∧
    (installAux (craneStep craneDeg) (craneDeg.waterlvl + craneDeg.h_dry) 2 argsCDeg).isSome = true :=
  ⟨(slope_fallback_terminates excDeg craneDeg argsDeg argsCDeg
      (by simp [excDeg, argsDeg]) (by simp [craneDeg, argsCDeg])).1,
   (slope_fallback_terminates excDeg craneDeg argsDeg argsCDeg
      (by simp [excDeg, argsDeg]) (by simp [craneDeg, argsCDeg])).2.1⟩
